import Mathlib

/-
Verification of the request-relay core of the Case-Studies app:
the server-side relay endpoint (route action) and the client-side
relay helper (proxyRequest).  JSON payloads are modelled as a
schema-less structured-value type; numbers are restricted to
integers, which covers every payload appearing in this development.
JavaScript-specific behaviours (truthiness, template-string display,
object spread, property assignment) are modelled explicitly.
-/

/-- JSON values: null, booleans, numbers (integers), strings, arrays,
objects as ordered field lists. -/
inductive Json : Type where
  | null : Json
  | bool (b : Bool) : Json
  | num (n : Int) : Json
  | str (s : String) : Json
  | arr (elems : List Json) : Json
  | obj (fields : List (String × Json)) : Json

/-- JavaScript truthiness of a JSON value. -/
def Json.truthy : Json → Bool
  | Json.null => false
  | Json.bool b => b
  | Json.num n => n != 0
  | Json.str s => s != ""
  | Json.arr _ => true
  | Json.obj _ => true

/-- Truthiness of an optional JSON value; a missing field reads as
JavaScript undefined, which is falsy. -/
def truthyOpt : Option Json → Bool
  | none => false
  | some j => j.truthy

/-- Whether the JavaScript typeof operator answers "object" for
this value (objects, arrays and null). -/
def Json.isObjType : Json → Bool
  | Json.obj _ => true
  | Json.arr _ => true
  | Json.null => true
  | _ => false

/-- First-match lookup in an ordered field list. -/
def lookupField : List (String × Json) → String → Option Json
  | [], _ => none
  | (k, v) :: rest, key => if k = key then some v else lookupField rest key

/-- JavaScript property access on a JSON value: named fields exist
only on objects; everything else reads as undefined (none). -/
def Json.get : Json → String → Option Json
  | Json.obj fs, k => lookupField fs k
  | _, _ => none

/-- JavaScript property assignment on an ordered field list (keys
are unique in JavaScript objects): an existing key is overwritten in
place, a new key is appended. -/
def objSet : List (String × Json) → String → Json → List (String × Json)
  | [], k, v => [(k, v)]
  | (k', v') :: rest, k, v =>
    if k' = k then (k, v) :: rest else (k', v') :: objSet rest k v

/-- Build an object field list from parsed key/value pairs with
JavaScript duplicate-key semantics (last value wins, first position kept). -/
def mkObjFields (l : List (String × Json)) : List (String × Json) :=
  l.foldl (fun acc p => objSet acc p.1 p.2) []

mutual

/-- Join of array elements under Array.prototype.join: a null
element renders as the empty string, everything else by String
conversion. -/
def Json.displayItems : String → List Json → String
  | _, [] => ""
  | _, [Json.null] => ""
  | _, [x] => Json.display x
  | sep, Json.null :: y :: rest => sep ++ Json.displayItems sep (y :: rest)
  | sep, x :: y :: rest => Json.display x ++ sep ++ Json.displayItems sep (y :: rest)

/-- JavaScript String() conversion of a JSON value, as used by
template strings: arrays join with commas, objects show the generic
object tag. -/
def Json.display : Json → String
  | Json.null => "null"
  | Json.bool b => if b then "true" else "false"
  | Json.num n => toString n
  | Json.str s => s
  | Json.arr xs => Json.displayItems "," xs
  | Json.obj _ => "[object Object]"

end

/-- Escape of one character inside a serialized JSON string literal. -/
def escapeChar (c : Char) : String :=
  if c = '"' then "\\\""
  else if c = '\\' then "\\\\"
  else if c = '\n' then "\\n"
  else if c = '\t' then "\\t"
  else if c = '\r' then "\\r"
  else String.singleton c

/-- Serialized JSON string literal with surrounding quotes. -/
def quoteStr (s : String) : String :=
  "\"" ++ String.join (s.toList.map escapeChar) ++ "\""

mutual

/-- Serialization of a JSON value in the manner of JSON.stringify. -/
def Json.stringify : Json → String
  | Json.null => "null"
  | Json.bool b => if b then "true" else "false"
  | Json.num n => toString n
  | Json.str s => quoteStr s
  | Json.arr xs => "[" ++ Json.stringifyItems xs ++ "]"
  | Json.obj fs => "\x7b" ++ Json.stringifyFields fs ++ "\x7d"

/-- Comma-separated serialization of array elements. -/
def Json.stringifyItems : List Json → String
  | [] => ""
  | [x] => Json.stringify x
  | x :: y :: rest => Json.stringify x ++ "," ++ Json.stringifyItems (y :: rest)

/-- Comma-separated serialization of object fields. -/
def Json.stringifyFields : List (String × Json) → String
  | [] => ""
  | [(k, v)] => quoteStr k ++ ":" ++ Json.stringify v
  | (k, v) :: rest => quoteStr k ++ ":" ++ Json.stringify v ++ "," ++ Json.stringifyFields rest

end

/-- Whitespace recognised by the JSON grammar. -/
def isJsonWs (c : Char) : Bool :=
  c = ' ' || c = '\n' || c = '\t' || c = '\r'

/-- Drop leading JSON whitespace. -/
def skipWs : List Char → List Char
  | [] => []
  | c :: rest => if isJsonWs c then skipWs rest else c :: rest

/-- Consume an expected literal character sequence, answering the
remaining input on success. -/
def dropLit : List Char → List Char → Option (List Char)
  | [], cs => some cs
  | l :: ls, c :: cs => if c = l then dropLit ls cs else none
  | _ :: _, [] => none

/-- Parse the body of a JSON string literal after its opening quote,
handling the simple escapes. -/
def parseStringBody : List Char → Option (String × List Char)
  | [] => none
  | '"' :: rest => some ("", rest)
  | '\\' :: e :: rest =>
    let dec : Option Char :=
      if e = '"' then some '"'
      else if e = '\\' then some '\\'
      else if e = '/' then some '/'
      else if e = 'n' then some '\n'
      else if e = 't' then some '\t'
      else if e = 'r' then some '\r'
      else if e = 'b' then some (Char.ofNat 8)
      else if e = 'f' then some (Char.ofNat 12)
      else none
    match dec with
    | none => none
    | some d =>
      match parseStringBody rest with
      | some (s, rem) => some (String.singleton d ++ s, rem)
      | none => none
  | '\\' :: [] => none
  | c :: rest =>
    match parseStringBody rest with
    | some (s, rem) => some (String.singleton c ++ s, rem)
    | none => none

/-- Split a maximal run of leading decimal digits from the input. -/
def takeDigits : List Char → List Char × List Char
  | [] => ([], [])
  | c :: rest =>
    if c.isDigit then
      let p := takeDigits rest
      (c :: p.1, p.2)
    else ([], c :: rest)

/-- Numeric value of a digit run. -/
def digitsToNat (ds : List Char) : Nat :=
  ds.foldl (fun acc c => acc * 10 + (c.toNat - 48)) 0

/-- Parse a JSON integer literal (an optional minus sign and a digit
run); fractional forms are outside this model. -/
def parseNum : List Char → Option (Json × List Char)
  | '-' :: rest =>
    let p := takeDigits rest
    if p.1.isEmpty then none
    else some (Json.num (-(Int.ofNat (digitsToNat p.1))), p.2)
  | cs =>
    let p := takeDigits cs
    if p.1.isEmpty then none
    else some (Json.num (Int.ofNat (digitsToNat p.1)), p.2)

/-- Opening-brace character. -/
def lbrace : Char := Char.ofNat 123

/-- Closing-brace character. -/
def rbrace : Char := Char.ofNat 125

mutual

/-- Fuel-bounded parser for one JSON value, answering the value and
the remaining input. -/
def parseVal : Nat → List Char → Option (Json × List Char)
  | 0, _ => none
  | fuel + 1, cs =>
    match skipWs cs with
    | [] => none
    | c :: rest =>
      if c = 'n' then (dropLit ("ull".toList) rest).map (fun rem => (Json.null, rem))
      else if c = 't' then (dropLit ("rue".toList) rest).map (fun rem => (Json.bool true, rem))
      else if c = 'f' then (dropLit ("alse".toList) rest).map (fun rem => (Json.bool false, rem))
      else if c = '"' then (parseStringBody rest).map (fun p => (Json.str p.1, p.2))
      else if c = '[' then
        match skipWs rest with
        | ']' :: rem => some (Json.arr [], rem)
        | _ =>
          match parseArrItems fuel rest with
          | some (xs, rem) => some (Json.arr xs, rem)
          | none => none
      else if c = lbrace then
        match skipWs rest with
        | d :: rem =>
          if d = rbrace then some (Json.obj [], rem)
          else
            match parseObjItems fuel rest with
            | some (fs, rem2) => some (Json.obj (mkObjFields fs), rem2)
            | none => none
        | [] => none
      else if c.isDigit || c = '-' then parseNum (c :: rest)
      else none

/-- Fuel-bounded parser for the element list of a non-empty array,
positioned after the opening bracket. -/
def parseArrItems : Nat → List Char → Option (List Json × List Char)
  | 0, _ => none
  | fuel + 1, cs =>
    match parseVal fuel cs with
    | none => none
    | some (v, rem) =>
      match skipWs rem with
      | c :: rest2 =>
        if c = ',' then
          match parseArrItems fuel rest2 with
          | some (vs, rem2) => some (v :: vs, rem2)
          | none => none
        else if c = ']' then some ([v], rest2)
        else none
      | [] => none

/-- Fuel-bounded parser for the field list of a non-empty object,
positioned after the opening brace. -/
def parseObjItems : Nat → List Char → Option (List (String × Json) × List Char)
  | 0, _ => none
  | fuel + 1, cs =>
    match skipWs cs with
    | '"' :: rest =>
      match parseStringBody rest with
      | none => none
      | some (k, rem) =>
        match skipWs rem with
        | ':' :: rest2 =>
          match parseVal fuel rest2 with
          | none => none
          | some (v, rem2) =>
            match skipWs rem2 with
            | c :: rest3 =>
              if c = ',' then
                match parseObjItems fuel rest3 with
                | some (fs, rem3) => some ((k, v) :: fs, rem3)
                | none => none
              else if c = rbrace then some ([(k, v)], rest3)
              else none
            | [] => none
        | _ => none
    | _ => none

end

/-- Parse of a whole JSON document in the manner of JSON.parse,
requiring only whitespace after the value. -/
def Json.parse (s : String) : Option Json :=
  match parseVal (s.length + 1) s.toList with
  | some (v, rem) => if skipWs rem = [] then some v else none
  | none => none

/-- Authenticated session data used by the relay action. -/
structure Session where
  shop : String
  accessToken : String

/-- Outcome of a completed outbound fetch: status code, reason
phrase, and the body read as raw text. -/
structure OutboundResponse where
  status : Nat
  statusText : String
  bodyText : String

/-- Response.ok of the Fetch API: status in the range 200-299. -/
def OutboundResponse.ok (r : OutboundResponse) : Bool :=
  200 ≤ r.status && r.status ≤ 299

/-- Result of the outbound fetch call: either a completed response or
a thrown exception carrying a message. -/
inductive FetchResult where
  | success (r : OutboundResponse) : FetchResult
  | throws (msg : String) : FetchResult

/-- Record of one outbound HTTP call the action issued: the endpoint
and method values taken from the request body, the merged headers,
and the JSON value serialized into the body (none for GET). -/
structure OutboundCall where
  endpoint : Json
  method : Json
  headers : List (String × Json)
  body : Option Json

/-- Response the action returns over its own transport. -/
structure EndpointResponse where
  status : Nat
  body : Json

/-- Full observable outcome of one action run: the transport response
plus the list of outbound calls issued. -/
structure ActionResult where
  response : EndpointResponse
  calls : List OutboundCall

/-- Fields contributed by a JavaScript object spread of a JSON value:
objects contribute their fields, arrays and strings contribute
index-keyed entries, every other value contributes nothing. -/
def spreadFields : Option Json → List (String × Json)
  | some (Json.obj fs) => fs
  | some (Json.arr xs) => xs.enum.map (fun p => (toString p.1, p.2))
  | some (Json.str s) => s.toList.enum.map (fun p => (toString p.1, Json.str (String.singleton p.2)))
  | _ => []

/-- Payload enrichment of the action: spread of the caller data, then
shopDomain and accessToken set from the session. -/
def enhance (data : Option Json) (session : Session) : Json :=
  Json.obj (objSet (objSet (spreadFields data) "shopDomain" (Json.str session.shop))
    "accessToken" (Json.str session.accessToken))

/-- Header object of the outbound call: the default Content-Type
overlaid with the spread of the caller-supplied headers. -/
def mergeHeaders (custom : Option Json) : List (String × Json) :=
  (spreadFields custom).foldl (fun acc p => objSet acc p.1 p.2)
    [("Content-Type", Json.str "application/json")]

/-- JavaScript String.prototype.trim over the characters of the
string: drop whitespace from both ends. -/
def jsTrim (s : String) : String :=
  String.mk (List.reverse (List.dropWhile Char.isWhitespace
    (List.reverse (List.dropWhile Char.isWhitespace s.toList))))

/-- Outbound body handling of the action: non-blank text is parsed as
JSON, a parse failure degrades to a tagged raw-text object, a blank
body degrades to a tagged empty-response object. -/
def parseResponseText (t : String) : Json :=
  if t != "" && jsTrim t != "" then
    match Json.parse t with
    | some v => v
    | none =>
      Json.obj [("message", Json.str "Non-JSON response"),
                ("rawResponse", Json.str (t.take 1000))]
  else Json.obj [("message", Json.str "Empty response")]

/-- Error body shape returned by the action for its own failures. -/
def errBody (msg : String) : Json :=
  Json.obj [("success", Json.bool false), ("error", Json.str msg)]

/-- Envelope body the action returns when the outbound call
completes. -/
def mkEnvelope (ok : Bool) (data : Json) (status : Nat) (statusText : String) : Json :=
  Json.obj [("success", Json.bool ok), ("data", data),
            ("status", Json.num (Int.ofNat status)),
            ("statusText", Json.str statusText)]

/-- Parameter validation of the action: the request body, its
endpoint field and its method field must all be truthy. -/
def validRequestBody (b : Json) : Bool :=
  b.truthy && truthyOpt (b.get "endpoint") && truthyOpt (b.get "method")

/-- Relay endpoint action (the route action of the proxy endpoint).
Inputs model the request method, the result of reading the inbound
body as JSON (error carries the thrown message), the authenticated
session, and the environment-determined outcome of the outbound
fetch.  Mirrors the source: 405 on non-POST, 400 on missing
parameters, enrichment and outbound call otherwise, envelope at
transport 200 when the outbound call completes, 500 with a prefixed
message when anything inside the try block throws. -/
def action (reqMethod : String) (bodyResult : Except String Json)
    (session : Session) (fetchResult : FetchResult) : ActionResult :=
  if reqMethod != "POST" then
    ⟨⟨405, errBody "Method not allowed"⟩, []⟩
  else
    match bodyResult with
    | Except.error m => ⟨⟨500, errBody ("Proxy error: " ++ m)⟩, []⟩
    | Except.ok requestBody =>
      if !(validRequestBody requestBody) then
        ⟨⟨400, errBody "Missing required parameters. Please provide 'endpoint' and 'method'."⟩, []⟩
      else
        let endpoint := (requestBody.get "endpoint").getD Json.null
        let method := (requestBody.get "method").getD Json.null
        let data := requestBody.get "data"
        let customHeaders := requestBody.get "headers"
        let enhancedData := enhance data session
        let headers := mergeHeaders customHeaders
        let callBody : Option Json :=
          match method with
          | Json.str s => if s = "GET" then none else some enhancedData
          | _ => some enhancedData
        let call : OutboundCall := ⟨endpoint, method, headers, callBody⟩
        match fetchResult with
        | FetchResult.throws m => ⟨⟨500, errBody ("Proxy error: " ++ m)⟩, [call]⟩
        | FetchResult.success r =>
          ⟨⟨200, mkEnvelope r.ok (parseResponseText r.bodyText) r.status r.statusText⟩, [call]⟩



/-- Result of the client's own fetch to the relay endpoint: either
the fetch threw, or a response arrived with a transport status and
the result of parsing its body as JSON (none when that parse
throws). -/
inductive ProxyFetchResult where
  | throws (msg : String) : ProxyFetchResult
  | resp (status : Nat) (body : Option Json) : ProxyFetchResult

/-- Response.ok for the client's view of the relay response. -/
def respOk (status : Nat) : Bool := 200 ≤ status && status ≤ 299

/-- String conversion of an optional JSON value; a missing value is
JavaScript undefined. -/
def displayOptD : Option Json → String
  | some j => j.display
  | none => "undefined"

/-- Detail suffix the client appends to its external-API error
message, probing data.error, then data.errors (string, array joined
with a comma and space, or object serialized), then data.message,
exactly as the source's truthiness checks and typeof dispatch do. -/
def externalApiErrorSuffix (data : Json) : String :=
  if data.truthy && data.isObjType then
    if truthyOpt (data.get "error") then
      " - " ++ displayOptD (data.get "error")
    else if truthyOpt (data.get "errors") then
      match data.get "errors" with
      | some (Json.str s) => " - " ++ s
      | some (Json.arr xs) => " - " ++ Json.displayItems ", " xs
      | some (Json.obj fs) => " - " ++ (Json.obj fs).stringify
      | _ => ""
    else if truthyOpt (data.get "message") then
      " - " ++ displayOptD (data.get "message")
    else ""
  else ""

/-- Full error message the client builds from a relay envelope whose
success flag is falsy: the external-API prefix with the envelope's
status (or Unknown when falsy), then the detail suffix. -/
def externalApiErrorMessage (envelope : Json) : String :=
  let statusPart :=
    match envelope.get "status" with
    | some s => if s.truthy then s.display else "Unknown"
    | none => "Unknown"
  "External API error: " ++ statusPart
    ++ externalApiErrorSuffix ((envelope.get "data").getD Json.null)

/-- Relay client helper proxyRequest, given the outcome of its fetch
to the relay endpoint and the throwOnHttpError flag.  Mirrors the
source: a non-2xx relay response raises the body's error field or a
Proxy error fallback; a falsy envelope success with the flag set
raises the built message; otherwise the envelope's data field is
returned (none models undefined).  A rejected fetch or a body that
fails to parse re-raises through the outer catch. -/
def proxyRequest (outcome : ProxyFetchResult) (throwOnHttpError : Bool) :
    Except String (Option Json) :=
  match outcome with
  | ProxyFetchResult.throws m => Except.error m
  | ProxyFetchResult.resp status body =>
    if !(respOk status) then
      let errorMessage :=
        match body with
        | some j =>
          if truthyOpt (j.get "error") then displayOptD (j.get "error")
          else "Proxy error: " ++ toString status
        | none => "Proxy error: " ++ toString status
      Except.error errorMessage
    else
      match body with
      | none => Except.error "Unexpected end of JSON input"
      | some result =>
        if !(truthyOpt (result.get "success")) && throwOnHttpError then
          Except.error (externalApiErrorMessage result)
        else
          Except.ok (result.get "data")

/-- Descriptor body the client serializes for the relay endpoint. -/
def clientRequestBody (endpoint : String) (method : String) (data : Json)
    (headers : Json) : Json :=
  Json.obj [("endpoint", Json.str endpoint), ("method", Json.str method),
            ("data", data), ("headers", headers)]

/-- End-to-end relay: the client posts its descriptor, the action
runs it against the given session and outbound-fetch outcome, and the
client unwraps the action's transport response.  Serialization of the
descriptor and of the endpoint's JSON response across the internal
channel is modelled as faithful. -/
def relay (endpoint method : String) (data headers : Json)
    (throwOnHttpError : Bool) (session : Session) (fetchResult : FetchResult) :
    Except String (Option Json) :=
  let t := action "POST" (Except.ok (clientRequestBody endpoint method data headers))
    session fetchResult
  proxyRequest (ProxyFetchResult.resp t.response.status (some t.response.body))
    throwOnHttpError

/-- Error message as claim C6 words it: the prefix with the status or
Unknown, appending the first present (truthy) of data.error, then
data.errors as a string, an array joined with a comma and space, or a
serialized object, then data.message.  Stated over the outbound
status and data for comparison with the client definition above. -/
def claimedErrorMessage (status : Nat) (data : Json) : String :=
  let pre := "External API error: " ++ (if status = 0 then "Unknown" else toString status)
  pre ++
    (if data.truthy && data.isObjType then
      if truthyOpt (data.get "error") then
        " - " ++ displayOptD (data.get "error")
      else if truthyOpt (data.get "errors") then
        match data.get "errors" with
        | some (Json.str s) => " - " ++ s
        | some (Json.arr xs) => " - " ++ Json.displayItems ", " xs
        | some (Json.obj fs) => " - " ++ (Json.obj fs).stringify
        | _ => ""
      else if truthyOpt (data.get "message") then
        " - " ++ displayOptD (data.get "message")
      else ""
    else "")

/-- Sample well-formed relay descriptor used by concrete witnesses. -/
def sampleReq (m : String) : Json :=
  Json.obj [("endpoint", Json.str "https://api.example.com/x"), ("method", Json.str m)]

/-- Setting a key makes it read back as the value just set. -/
theorem lookupField_objSet_same (fs : List (String × Json)) (k : String) (v : Json) :
    lookupField (objSet fs k v) k = some v := by
  induction fs with
  | nil => simp [objSet, lookupField]
  | cons p rest ih =>
    obtain ⟨k', v'⟩ := p
    by_cases hp : k' = k
    · simp [objSet, hp, lookupField]
    · simp [objSet, hp, lookupField, ih]

/-- Setting one key leaves every other key reading as before. -/
theorem lookupField_objSet_ne (fs : List (String × Json)) (k key : String) (v : Json)
    (h : key ≠ k) : lookupField (objSet fs k v) key = lookupField fs key := by
  induction fs with
  | nil => simp [objSet, lookupField, Ne.symm h]
  | cons p rest ih =>
    obtain ⟨k', v'⟩ := p
    by_cases hp : k' = k
    · subst hp
      simp [objSet, lookupField, Ne.symm h]
    · by_cases hk : k' = key
      · simp [objSet, hp, lookupField, hk, h]
      · simp [objSet, hp, lookupField, hk, ih]

/-- C1: for every relay request whose outbound call completes with an
HTTP response, the envelope's success field is true iff the outbound
status code is in the range 200-299, regardless of the response
body's content. -/
theorem envelope_success_iff_outbound_2xx (reqBody : Json) (session : Session)
    (r : OutboundResponse) (hv : validRequestBody reqBody = true) :
    (action "POST" (Except.ok reqBody) session
        (FetchResult.success r)).response.body.get "success" = some (Json.bool r.ok)
    ∧ (r.ok = true ↔ 200 ≤ r.status ∧ r.status ≤ 299) := by
  constructor
  · simp [action, hv, mkEnvelope, Json.get, lookupField]
  · simp [OutboundResponse.ok, Bool.and_eq_true, decide_eq_true_eq]

/-- Witness for C1 at a concrete failing outbound status with a
non-empty body. -/
theorem envelope_success_iff_outbound_2xx_witness :
    validRequestBody (Json.obj [("endpoint", Json.str "https://api.example.com/x"),
      ("method", Json.str "GET")]) = true
    ∧ ((action "POST" (Except.ok (Json.obj [("endpoint", Json.str "https://api.example.com/x"),
          ("method", Json.str "GET")])) ⟨"s.myshopify.com", "tok"⟩
          (FetchResult.success ⟨503, "Service Unavailable", "oops"⟩)).response.body.get "success"
        = some (Json.bool (OutboundResponse.ok ⟨503, "Service Unavailable", "oops"⟩))
      ∧ (OutboundResponse.ok ⟨503, "Service Unavailable", "oops"⟩ = true ↔ 200 ≤ 503 ∧ 503 ≤ 299)) :=
  ⟨rfl, envelope_success_iff_outbound_2xx _ _ _ rfl⟩

/-- C2: for every well-formed relay request whose outbound call
completes, the endpoint answers its own transport with status 200 and
a body of exactly the shape success, data, status, statusText built
from the outbound response. -/
theorem relay_wraps_outbound (reqBody : Json) (session : Session)
    (r : OutboundResponse) (hv : validRequestBody reqBody = true) :
    (action "POST" (Except.ok reqBody) session (FetchResult.success r)).response
      = ⟨200, Json.obj [("success", Json.bool r.ok),
          ("data", parseResponseText r.bodyText),
          ("status", Json.num (Int.ofNat r.status)),
          ("statusText", Json.str r.statusText)]⟩ := by
  simp [action, hv, mkEnvelope]

/-- Witness for C2 at a concrete outbound 404. -/
theorem relay_wraps_outbound_witness :
    validRequestBody (Json.obj [("endpoint", Json.str "https://api.example.com/x"),
      ("method", Json.str "GET")]) = true
    ∧ (action "POST" (Except.ok (Json.obj [("endpoint", Json.str "https://api.example.com/x"),
          ("method", Json.str "GET")])) ⟨"s.myshopify.com", "tok"⟩
          (FetchResult.success ⟨404, "Not Found", "\x7b\"error\":\"not found\"\x7d"⟩)).response
        = ⟨200, Json.obj [("success", Json.bool (OutboundResponse.ok ⟨404, "Not Found", "\x7b\"error\":\"not found\"\x7d"⟩)),
            ("data", parseResponseText "\x7b\"error\":\"not found\"\x7d"),
            ("status", Json.num (Int.ofNat 404)),
            ("statusText", Json.str "Not Found")]⟩ :=
  ⟨rfl, relay_wraps_outbound _ _ _ rfl⟩

/-- C3: for every POST relay request whose body is missing the
endpoint field or the method field, the endpoint answers 400 with the
structured parameter error, and no outbound call (hence no identity
enrichment) happens. -/
theorem missing_params_rejected (reqBody : Json) (session : Session) (f : FetchResult)
    (h : reqBody.get "endpoint" = none ∨ reqBody.get "method" = none) :
    action "POST" (Except.ok reqBody) session f
      = ⟨⟨400, Json.obj [("success", Json.bool false),
          ("error", Json.str "Missing required parameters. Please provide 'endpoint' and 'method'.")]⟩,
         []⟩ := by
  have hv : validRequestBody reqBody = false := by
    rcases h with h | h <;> simp [validRequestBody, h, truthyOpt]
  simp [action, hv, errBody]

/-- Witness for C3 at a concrete body carrying only an endpoint. -/
theorem missing_params_rejected_witness :
    (Json.obj [("endpoint", Json.str "https://api.example.com/x")]).get "method" = none
    ∧ action "POST" (Except.ok (Json.obj [("endpoint", Json.str "https://api.example.com/x")]))
        ⟨"s.myshopify.com", "tok"⟩ (FetchResult.success ⟨200, "OK", "\x7b\x7d"⟩)
      = ⟨⟨400, Json.obj [("success", Json.bool false),
          ("error", Json.str "Missing required parameters. Please provide 'endpoint' and 'method'.")]⟩,
         []⟩ :=
  ⟨rfl, missing_params_rejected _ _ _ (Or.inr rfl)⟩

/-- C4: for every outbound response body that is non-empty (non-blank
after trimming) and parses as JSON, the endpoint places the parsed
value unchanged into the envelope's data field. -/
theorem roundtrip_parsed_body (reqBody : Json) (session : Session) (st : Nat)
    (stx t : String) (v : Json) (hv : validRequestBody reqBody = true)
    (hne : jsTrim t ≠ "") (hp : Json.parse t = some v) :
    (action "POST" (Except.ok reqBody) session
        (FetchResult.success ⟨st, stx, t⟩)).response.body.get "data" = some v := by
  have h0 : t ≠ "" := by
    intro h
    exact hne (by rw [h]; rfl)
  simp [action, hv, mkEnvelope, Json.get, lookupField, parseResponseText,
    bne_iff_ne, h0, hne, hp]

/-- Witness for C4 at the concrete scenario body of the spec. -/
theorem roundtrip_parsed_body_witness :
    validRequestBody (sampleReq "POST") = true
    ∧ jsTrim "\x7b\"id\":7\x7d" ≠ ""
    ∧ Json.parse "\x7b\"id\":7\x7d" = some (Json.obj [("id", Json.num 7)])
    ∧ (action "POST" (Except.ok (sampleReq "POST")) ⟨"s.myshopify.com", "tok"⟩
          (FetchResult.success ⟨201, "Created", "\x7b\"id\":7\x7d"⟩)).response.body.get "data"
        = some (Json.obj [("id", Json.num 7)]) :=
  ⟨rfl, by decide, rfl,
    roundtrip_parsed_body (sampleReq "POST") ⟨"s.myshopify.com", "tok"⟩ 201 "Created"
      "\x7b\"id\":7\x7d" (Json.obj [("id", Json.num 7)]) rfl (by decide) rfl⟩

/-- C5: a blank (empty or whitespace-only) outbound body yields the
tagged empty-response object, and a non-blank body that fails to
parse yields the tagged raw-text object truncated to 1000
characters. -/
theorem parse_fallback_bodies (reqBody : Json) (session : Session) (st : Nat)
    (stx t₁ t₂ : String) (hv : validRequestBody reqBody = true)
    (h1 : jsTrim t₁ = "") (h2 : jsTrim t₂ ≠ "") (h3 : Json.parse t₂ = none) :
    (action "POST" (Except.ok reqBody) session
        (FetchResult.success ⟨st, stx, t₁⟩)).response.body.get "data"
      = some (Json.obj [("message", Json.str "Empty response")])
    ∧ (action "POST" (Except.ok reqBody) session
        (FetchResult.success ⟨st, stx, t₂⟩)).response.body.get "data"
      = some (Json.obj [("message", Json.str "Non-JSON response"),
          ("rawResponse", Json.str (t₂.take 1000))]) := by
  have h0 : t₂ ≠ "" := by
    intro h
    exact h2 (by rw [h]; rfl)
  constructor
  · simp [action, hv, mkEnvelope, Json.get, lookupField, parseResponseText, h1]
  · simp [action, hv, mkEnvelope, Json.get, lookupField, parseResponseText,
      bne_iff_ne, h0, h2, h3]

/-- Witness for C5 at a whitespace-only body and a non-JSON body. -/
theorem parse_fallback_bodies_witness :
    validRequestBody (sampleReq "GET") = true
    ∧ jsTrim "  " = ""
    ∧ jsTrim "not json" ≠ ""
    ∧ Json.parse "not json" = none
    ∧ (action "POST" (Except.ok (sampleReq "GET")) ⟨"s.myshopify.com", "tok"⟩
          (FetchResult.success ⟨204, "No Content", "  "⟩)).response.body.get "data"
        = some (Json.obj [("message", Json.str "Empty response")])
    ∧ (action "POST" (Except.ok (sampleReq "GET")) ⟨"s.myshopify.com", "tok"⟩
          (FetchResult.success ⟨502, "Bad Gateway", "not json"⟩)).response.body.get "data"
        = some (Json.obj [("message", Json.str "Non-JSON response"),
            ("rawResponse", Json.str (("not json" : String).take 1000))]) := by
  refine ⟨rfl, by decide, by decide, rfl, ?_, ?_⟩
  · exact (parse_fallback_bodies (sampleReq "GET") ⟨"s.myshopify.com", "tok"⟩ 204
      "No Content" "  " "not json" rfl (by decide) (by decide) rfl).1
  · exact (parse_fallback_bodies (sampleReq "GET") ⟨"s.myshopify.com", "tok"⟩ 502
      "Bad Gateway" "  " "not json" rfl (by decide) (by decide) rfl).2

/-- C6: for every relay envelope with a false success flag and
throwOnHttpError set, the client raises exactly the message the claim
describes (prefix with the status or Unknown, then the first truthy
of data.error, data.errors, data.message); in particular an outbound
404 with an error field raises the full expected message. -/
theorem external_api_error_raised (status : Nat) (statusText : String) (data : Json) :
    proxyRequest (ProxyFetchResult.resp 200
        (some (mkEnvelope false data status statusText))) true
      = Except.error (claimedErrorMessage status data)
    ∧ relay "https://api.example.com/x" "GET" Json.null (Json.obj []) true
        ⟨"s.myshopify.com", "tok"⟩
        (FetchResult.success ⟨404, "Not Found", "\x7b\"error\":\"not found\"\x7d"⟩)
      = Except.error "External API error: 404 - not found" := by
  constructor
  · cases status <;> rfl
  · rfl

/-- C7: for every relay envelope with a true success flag, or a false
one while throwOnHttpError is false, the client returns the
envelope's data unchanged; in particular the suppressed 404 returns
the outbound error object. -/
theorem client_returns_envelope_data (d : Json) (st : Nat) (stx : String) :
    proxyRequest (ProxyFetchResult.resp 200 (some (mkEnvelope true d st stx))) true
      = Except.ok (some d)
    ∧ proxyRequest (ProxyFetchResult.resp 200 (some (mkEnvelope true d st stx))) false
      = Except.ok (some d)
    ∧ proxyRequest (ProxyFetchResult.resp 200 (some (mkEnvelope false d st stx))) false
      = Except.ok (some d)
    ∧ relay "https://api.example.com/x" "GET" Json.null (Json.obj []) false
        ⟨"s.myshopify.com", "tok"⟩
        (FetchResult.success ⟨404, "Not Found", "\x7b\"error\":\"not found\"\x7d"⟩)
      = Except.ok (some (Json.obj [("error", Json.str "not found")])) :=
  ⟨rfl, rfl, rfl, rfl⟩

/-- C8: for every outbound transport failure on a well-formed relay
request, the client raises the endpoint's 500 body message, which
starts with the Proxy error marker, for both values of
throwOnHttpError. -/
theorem transport_failure_raises (endpoint method : String) (data headers : Json)
    (b : Bool) (session : Session) (m : String)
    (he : endpoint ≠ "") (hm : method ≠ "") :
    relay endpoint method data headers b session (FetchResult.throws m)
      = Except.error ("Proxy error: " ++ m)
    ∧ ∃ rest, "Proxy error: " ++ m = "Proxy error:" ++ rest := by
  have hv : validRequestBody (clientRequestBody endpoint method data headers) = true := by
    simp [validRequestBody, clientRequestBody, Json.get, lookupField, truthyOpt,
      Json.truthy, bne_iff_ne, he, hm]
  have hlen : ("Proxy error: " : String).length = 13 := rfl
  have hmne : ("Proxy error: " ++ m) ≠ "" := by
    intro h
    have hl := congrArg String.length h
    rw [String.length_append, hlen] at hl
    simp [String.length_empty] at hl
  refine ⟨?_, ⟨" " ++ m, by rw [← String.append_assoc]; rfl⟩⟩
  simp [relay, action, hv, proxyRequest, respOk, errBody, Json.get, lookupField,
    truthyOpt, Json.truthy, displayOptD, Json.display, bne_iff_ne, hmne]

/-- Witness for C8 at a concrete connection failure, for both flag
values. -/
theorem transport_failure_raises_witness :
    ("https://api.example.com/x" : String) ≠ "" ∧ ("POST" : String) ≠ ""
    ∧ relay "https://api.example.com/x" "POST" Json.null (Json.obj []) true
        ⟨"s.myshopify.com", "tok"⟩ (FetchResult.throws "connect ECONNREFUSED")
      = Except.error ("Proxy error: " ++ "connect ECONNREFUSED")
    ∧ relay "https://api.example.com/x" "POST" Json.null (Json.obj []) false
        ⟨"s.myshopify.com", "tok"⟩ (FetchResult.throws "connect ECONNREFUSED")
      = Except.error ("Proxy error: " ++ "connect ECONNREFUSED") :=
  ⟨by decide, by decide,
    (transport_failure_raises "https://api.example.com/x" "POST" Json.null (Json.obj [])
      true ⟨"s.myshopify.com", "tok"⟩ "connect ECONNREFUSED" (by decide) (by decide)).1,
    (transport_failure_raises "https://api.example.com/x" "POST" Json.null (Json.obj [])
      false ⟨"s.myshopify.com", "tok"⟩ "connect ECONNREFUSED" (by decide) (by decide)).1⟩

/-- Counterexample to C9 as stated: a 500 is not equivalent to the
outbound call throwing, because a malformed inbound JSON body (the
request.json() throw caught by the same try block) also answers 500
while the outbound fetch completes and is never issued. -/
theorem relay_500_not_only_on_outbound_throw :
    ¬ (∀ (bodyResult : Except String Json) (session : Session) (f : FetchResult),
        ((action "POST" bodyResult session f).response.status = 500
          ↔ ∃ m, f = FetchResult.throws m)) := by
  intro h
  rcases (h (Except.error "Unexpected token u in JSON at position 0")
      ⟨"s.myshopify.com", "tok"⟩
      (FetchResult.success ⟨200, "OK", "\x7b\x7d"⟩)).mp rfl with ⟨m, hm⟩
  exact FetchResult.noConfusion hm

/-- C9 amended: the endpoint answers transport 500 exactly when the
request is a POST and either reading the inbound body as JSON threw,
or the body is well-formed and the outbound call threw; every 500
carries the Proxy error body shape. -/
theorem relay_500_characterization (reqMethod : String) (bodyResult : Except String Json)
    (session : Session) (f : FetchResult) :
    ((action reqMethod bodyResult session f).response.status = 500
      ↔ reqMethod = "POST"
        ∧ ((∃ m, bodyResult = Except.error m)
          ∨ ∃ rb, bodyResult = Except.ok rb ∧ validRequestBody rb = true
              ∧ ∃ m, f = FetchResult.throws m))
    ∧ ((action reqMethod bodyResult session f).response.status = 500 →
        ∃ m, (action reqMethod bodyResult session f).response.body
          = errBody ("Proxy error: " ++ m)) := by
  by_cases hP : reqMethod = "POST"
  · subst hP
    cases bodyResult with
    | error m =>
      refine ⟨?_, fun _ => ⟨m, rfl⟩⟩
      simp [action]
    | ok rb =>
      by_cases hv : validRequestBody rb
      · cases f with
        | throws m =>
          refine ⟨?_, fun _ => ⟨m, by simp [action, hv]⟩⟩
          simp [action, hv]
        | success r =>
          constructor
          · simp [action, hv]
          · intro hh
            simp [action, hv] at hh
      · rw [Bool.not_eq_true] at hv
        constructor
        · simp [action, hv]
        · intro hh
          simp [action, hv] at hh
  · constructor
    · simp [action, bne_iff_ne, hP]
    · intro hh
      simp [action, bne_iff_ne, hP] at hh

/-- Witness for the amended C9 at a concrete malformed inbound
body. -/
theorem relay_500_characterization_witness :
    (action "POST" (Except.error "Unexpected token u in JSON at position 0")
        ⟨"s.myshopify.com", "tok"⟩
        (FetchResult.success ⟨200, "OK", "\x7b\x7d"⟩)).response.status = 500
    ∧ ∃ m, (action "POST" (Except.error "Unexpected token u in JSON at position 0")
        ⟨"s.myshopify.com", "tok"⟩
        (FetchResult.success ⟨200, "OK", "\x7b\x7d"⟩)).response.body
        = errBody ("Proxy error: " ++ m) := by
  have h := relay_500_characterization "POST"
    (Except.error "Unexpected token u in JSON at position 0")
    ⟨"s.myshopify.com", "tok"⟩ (FetchResult.success ⟨200, "OK", "\x7b\x7d"⟩)
  exact ⟨h.1.mpr ⟨rfl, Or.inl ⟨_, rfl⟩⟩, h.2 (h.1.mpr ⟨rfl, Or.inl ⟨_, rfl⟩⟩)⟩

/-- C10: for every non-GET relay request, the outbound JSON body
carries the authenticated session's shop and accessToken under
shopDomain and accessToken, whatever identity fields the caller's
data payload tried to supply. -/
theorem enrichment_overwrites_identity (endpoint method : String) (data headers : Json)
    (session : Session) (f : FetchResult)
    (he : endpoint ≠ "") (hm : method ≠ "") (hg : method ≠ "GET") :
    ∃ fields,
      (action "POST" (Except.ok (clientRequestBody endpoint method data headers))
          session f).calls.map OutboundCall.body = [some (Json.obj fields)]
      ∧ lookupField fields "shopDomain" = some (Json.str session.shop)
      ∧ lookupField fields "accessToken" = some (Json.str session.accessToken) := by
  have hv : validRequestBody (clientRequestBody endpoint method data headers) = true := by
    simp [validRequestBody, clientRequestBody, Json.get, lookupField, truthyOpt,
      Json.truthy, bne_iff_ne, he, hm]
  refine ⟨objSet (objSet (spreadFields (some data)) "shopDomain" (Json.str session.shop))
      "accessToken" (Json.str session.accessToken), ?_, ?_, ?_⟩
  · cases f <;>
      simp [action, hv] <;>
      simp [clientRequestBody, Json.get, lookupField, enhance, hg]
  · rw [lookupField_objSet_ne _ _ _ _ (by decide)]
    exact lookupField_objSet_same _ _ _
  · exact lookupField_objSet_same _ _ _

/-- Witness for C10 at a payload that tries to spoof both identity
fields. -/
theorem enrichment_overwrites_identity_witness :
    ("https://api.example.com/x" : String) ≠ "" ∧ ("POST" : String) ≠ ""
    ∧ ("POST" : String) ≠ "GET"
    ∧ ∃ fields,
        (action "POST" (Except.ok (clientRequestBody "https://api.example.com/x" "POST"
            (Json.obj [("shopDomain", Json.str "attacker.example"),
              ("accessToken", Json.str "stolen")]) (Json.obj [])))
            ⟨"real.myshopify.com", "token123"⟩
            (FetchResult.success ⟨200, "OK", "\x7b\x7d"⟩)).calls.map OutboundCall.body
          = [some (Json.obj fields)]
        ∧ lookupField fields "shopDomain" = some (Json.str "real.myshopify.com")
        ∧ lookupField fields "accessToken" = some (Json.str "token123") :=
  ⟨by decide, by decide, by decide,
    enrichment_overwrites_identity "https://api.example.com/x" "POST"
      (Json.obj [("shopDomain", Json.str "attacker.example"),
        ("accessToken", Json.str "stolen")]) (Json.obj [])
      ⟨"real.myshopify.com", "token123"⟩ (FetchResult.success ⟨200, "OK", "\x7b\x7d"⟩)
      (by decide) (by decide) (by decide)⟩
